import Mathlib

/-!
Shallow embedding of the Credential & Session Lifecycle Subsystem of the
Cybersoft backend (Express + GraphQL + Prisma).  Time is wall-clock
milliseconds as a `Nat` (JavaScript `Date` arithmetic).  JavaScript
`throw new Error(msg)` control flow is embedded as `Except String`,
carrying the exact thrown message; Prisma tables are lists of rows.
-/

namespace Cybersoft

/-- One millisecond-count day, `24 * 60 * 60 * 1000` (the `maxAge` and
`setDate(getDate() + 7)` arithmetic in the resolvers). -/
def dayMs : Nat := 24 * 60 * 60 * 1000

/-- Decoded JWT payload: both token kinds carry `{ userId }`
(src/utils/jwt.js). -/
structure JwtPayload where
  userId : String
deriving Repr, DecidableEq

/-- A signed token as produced by `jsonwebtoken`: the payload's `userId`,
the symmetric secret it was signed with, and the absolute expiry instant
derived from `expiresIn`.  `garbage` stands for any string that is not a
well-formed signed token. -/
inductive Jwt where
  | signed (userId : String) (secret : String) (exp : Nat)
  | garbage (s : String)
deriving Repr, DecidableEq

/-- Process-wide configuration read from the environment: the two signing
secrets and the two lifetimes (`ACCESS_TOKEN_EXPIRY || '15m'`,
`REFRESH_TOKEN_EXPIRY || '7d'`), lifetimes in milliseconds. -/
structure Config where
  accessSecret : String
  refreshSecret : String
  accessExpiry : Nat
  refreshExpiry : Nat
deriving Repr, DecidableEq

/-- The default refresh lifetime `'7d'` used when `REFRESH_TOKEN_EXPIRY`
is unset. -/
def defaultRefreshExpiry : Nat := 7 * dayMs

/-- `jwt.verify(token, secret)` at instant `now`: succeeds iff the token
is a well-formed signed token whose secret matches and whose expiry has
not passed. -/
def jwtVerify (tok : Jwt) (secret : String) (now : Nat) : Option JwtPayload :=
  match tok with
  | .signed userId sec exp => if sec = secret ∧ now < exp then some ⟨userId⟩ else none
  | .garbage _ => none

/-- `generateAccessToken` (src/utils/jwt.js): sign `{ userId }` with the
access secret, expiring `accessExpiry` after `now`. -/
def generateAccessToken (cfg : Config) (userId : String) (now : Nat) : Jwt :=
  .signed userId cfg.accessSecret (now + cfg.accessExpiry)

/-- `generateRefreshToken` (src/utils/jwt.js): sign `{ userId }` with the
refresh secret, expiring `refreshExpiry` after `now`. -/
def generateRefreshToken (cfg : Config) (userId : String) (now : Nat) : Jwt :=
  .signed userId cfg.refreshSecret (now + cfg.refreshExpiry)

/-- `verifyAccessToken` (src/utils/jwt.js): any verification failure is
rethrown as the single message `Invalid or expired access token`. -/
def verifyAccessToken (cfg : Config) (tok : Jwt) (now : Nat) : Except String JwtPayload :=
  match jwtVerify tok cfg.accessSecret now with
  | some payload => .ok payload
  | none => .error "Invalid or expired access token"

/-- `verifyRefreshToken` (src/utils/jwt.js): any verification failure is
rethrown as the single message `Invalid or expired refresh token`. -/
def verifyRefreshToken (cfg : Config) (tok : Jwt) (now : Nat) : Except String JwtPayload :=
  match jwtVerify tok cfg.refreshSecret now with
  | some payload => .ok payload
  | none => .error "Invalid or expired refresh token"

/-- A row of the Prisma `User` table.  `password` and `googleId` are
nullable; `role` defaults to the ordinary (non-admin) role. -/
structure User where
  id : String
  username : String
  email : Option String
  password : Option String
  googleId : Option String
  role : String
deriving Repr, DecidableEq

/-- A row of the Prisma `RefreshToken` table: unique id, the token value
(unique), owning user id, absolute expiry. -/
structure RefreshTokenRow where
  id : Nat
  token : Jwt
  userId : String
  expiresAt : Nat
deriving Repr, DecidableEq

/-- The relational store: the two tables the auth subsystem touches. -/
structure DB where
  users : List User
  refreshTokens : List RefreshTokenRow
deriving Repr, DecidableEq

/-- `prisma.refreshToken.findUnique({ where: { token } })`: the token
column is unique, so the first match is the only match. -/
def DB.findRefreshByToken (db : DB) (tok : Jwt) : Option RefreshTokenRow :=
  db.refreshTokens.find? (fun r => r.token == tok)

/-- `prisma.user.findUnique({ where: { id } })`. -/
def DB.findUserById (db : DB) (uid : String) : Option User :=
  db.users.find? (fun u => u.id == uid)

/-- The refresh-session persistence step shared by `register`, `login`
and `googleCallback`: `expiresAt = new Date(); expiresAt.setDate(
expiresAt.getDate() + 7)` — the stored expiry is a hard-coded seven days
after `now`, then `prisma.refreshToken.create({...})`. -/
def storeRefreshToken (db : DB) (tok : Jwt) (userId : String) (freshId : Nat)
    (now : Nat) : DB :=
  { db with refreshTokens :=
      db.refreshTokens ++ [⟨freshId, tok, userId, now + 7 * dayMs⟩] }

/-- Issue a refresh session for `userId` (the token-minting plus
persistence block of `register`/`login`/`googleCallback`): generate a
refresh token, persist the row, return the token with the new store. -/
def issueRefreshToken (cfg : Config) (db : DB) (userId : String) (freshId : Nat)
    (now : Nat) : Jwt × DB :=
  let refreshToken := generateRefreshToken cfg userId now
  (refreshToken, storeRefreshToken db refreshToken userId freshId now)

/-- The `refreshToken` GraphQL mutation (src/graphql/resolvers/index.js):
read the cookie, verify the signature, look the row up by token value,
lazily delete it when the stored expiry has passed, otherwise mint a new
access token for the row's owner.  Returns the resolver outcome together
with the (possibly updated) store. -/
def refreshTokenMutation (cfg : Config) (db : DB) (cookie : Option Jwt)
    (now : Nat) : Except String (Jwt × Option User) × DB :=
  match cookie with
  | none => (.error "No refresh token provided", db)
  | some tok =>
    match verifyRefreshToken cfg tok now with
    | .error _ => (.error "Invalid refresh token", db)
    | .ok _ =>
      match db.findRefreshByToken tok with
      | none => (.error "Refresh token not found", db)
      | some stored =>
        if now > stored.expiresAt then
          (.error "Refresh token expired",
           { db with refreshTokens :=
               db.refreshTokens.filter (fun r => r.id ≠ stored.id) })
        else
          (.ok (generateAccessToken cfg stored.userId now,
                db.findUserById stored.userId), db)

/-- The `logout` GraphQL mutation: when a refresh-token cookie is
present, `prisma.refreshToken.deleteMany({ where: { token } })` — delete
every row with that token value, succeeding even when none exists — then
clear the cookie and return `true`. -/
def logoutMutation (db : DB) (cookie : Option Jwt) : Bool × DB :=
  match cookie with
  | none => (true, db)
  | some tok =>
    (true, { db with refreshTokens :=
        db.refreshTokens.filter (fun r => r.token ≠ tok) })

/-! ### Request Authentication Resolver (src/middleware/auth.js)

The middleware works on raw strings carried by the HTTP request; the
access-token verifier it imports is abstracted as a parameter
`verify : String → Except String JwtPayload` (in the source, the
composition of JWT decoding with `verifyAccessToken`). -/

/-- The pieces of the Express request object the middleware reads:
`req.headers.authorization` and `req.cookies.accessToken`.  `none` means
the field is absent (`undefined`). -/
structure Request where
  authorization : Option String
  accessTokenCookie : Option String
deriving Repr, DecidableEq

/-- JavaScript truthiness of a nullable string: `undefined`/`null` and
the empty string are falsy. -/
def strTruthy : Option String → Bool
  | none => false
  | some s => !(s == "")

/-- Character-list worker for JavaScript `s.split(' ')`: cut at every
single space character, keeping empty pieces. -/
def jsSplitSpaceAux : List Char → List Char → List String
  | [], acc => [String.mk acc.reverse]
  | c :: cs, acc =>
    if c = ' ' then String.mk acc.reverse :: jsSplitSpaceAux cs []
    else jsSplitSpaceAux cs (c :: acc)

/-- JavaScript `s.split(' ')`. -/
def jsSplitSpace (s : String) : List String := jsSplitSpaceAux s.data []

/-- The token-extraction logic of `authenticate`: take `parts[1]` of the
`Authorization` header when it splits into exactly two parts with scheme
`Bearer`; when that leaves no truthy token, fall back to the
`accessToken` cookie when that cookie is truthy; yield the token only
when truthy. -/
def extractToken (req : Request) : Option String :=
  let fromHeader : Option String :=
    match req.authorization with
    | none => none
    | some auth =>
      if auth == "" then none
      else
        let parts := jsSplitSpace auth
        if parts.length == 2 && (parts.head? == some "Bearer") then parts[1]?
        else none
  let token : Option String :=
    if !(strTruthy fromHeader) && strTruthy req.accessTokenCookie then
      req.accessTokenCookie
    else fromHeader
  if strTruthy token then token else none

/-- The user object `authenticate` places in the GraphQL context.  The
source builds the literal object `{ id: decoded.userId }`; it has no
`role` property, so a `role` read on it yields `undefined`, embedded
here as an `Option String` field that `authenticate` always sets to
`none`. -/
structure CtxUser where
  id : String
  role : Option String
deriving Repr, DecidableEq

/-- The GraphQL request context produced by the middleware:
`{ user: null }` or `{ user: { id } }`. -/
structure AuthContext where
  user : Option CtxUser
deriving Repr, DecidableEq

/-- `authenticate` (src/middleware/auth.js): extract a token, verify it,
and on any verification failure log locally and yield the
unauthenticated context instead of propagating the error. -/
def authenticate (verify : String → Except String JwtPayload)
    (req : Request) : AuthContext :=
  match extractToken req with
  | none => { user := none }
  | some tok =>
    match verify tok with
    | .ok decoded => { user := some { id := decoded.userId, role := none } }
    | .error _ => { user := none }

/-- `requireAuth` (src/middleware/auth.js): throw `Not authenticated`
when the context has no user, otherwise return the context user. -/
def requireAuth (ctx : AuthContext) : Except String CtxUser :=
  match ctx.user with
  | none => .error "Not authenticated"
  | some u => .ok u

/-- `requireAdmin` (graphql resolvers, ESM variant): `requireAuth`, then
throw `Admin access required` unless the context user's `role` property
equals `'ADMIN'` (in JavaScript, `user.role !== 'ADMIN'`). -/
def requireAdmin (ctx : AuthContext) : Except String CtxUser :=
  match requireAuth ctx with
  | .error e => .error e
  | .ok user =>
    if user.role ≠ some "ADMIN" then .error "Admin access required"
    else .ok user

/-! ### External Identity Resolver (src/config/passport.js, GoogleStrategy) -/

/-- Membership of a character in the JavaScript regular-expression class
`\s` (ASCII whitespace plus the Unicode space separators, line/paragraph
separators and the BOM). -/
def isJsWs (c : Char) : Bool :=
  c == ' ' || c == '\t' || c == '\n' || c == '\r' || c == '\x0b' || c == '\x0c' ||
  c == '\u00A0' || c == '\u1680' || c == '\u2000' || c == '\u2001' ||
  c == '\u2002' || c == '\u2003' || c == '\u2004' || c == '\u2005' ||
  c == '\u2006' || c == '\u2007' || c == '\u2008' || c == '\u2009' ||
  c == '\u200A' || c == '\u2028' || c == '\u2029' || c == '\u202F' ||
  c == '\u205F' || c == '\u3000' || c == '\uFEFF'

/-- Character-list core of `s.replace(/\s+/g, '_')`: every maximal run
of whitespace becomes a single underscore.  The boolean records whether
the previous character belonged to a whitespace run. -/
def collapseWsAux : Bool → List Char → List Char
  | _, [] => []
  | inRun, c :: cs =>
    if isJsWs c then
      if inRun then collapseWsAux true cs
      else '_' :: collapseWsAux true cs
    else c :: collapseWsAux false cs

/-- `s.replace(/\s+/g, '_')`. -/
def collapseWs (s : String) : String := ⟨collapseWsAux false s.data⟩

/-- `s.toLowerCase()`, character by character. -/
def jsToLowerCase (s : String) : String := ⟨s.data.map Char.toLower⟩

/-- The base username computed by the strategy before collision
resolution: `username.replace(/\s+/g, '_').toLowerCase()`. -/
def baseUsername (username : String) : String := jsToLowerCase (collapseWs username)

/-- The spec's description of the same derivation, in the spec's textual
order: the display name lower-cased, whitespace collapsed to
underscores. -/
def specBaseUsername (displayName : String) : String :=
  collapseWs (jsToLowerCase displayName)

/-- The `counter`-th candidate of the collision loop: `base` itself,
then `base_1`, `base_2`, … -/
def usernameCandidate (base : String) : Nat → String
  | 0 => base
  | k + 1 => base ++ "_" ++ toString (k + 1)

/-- `prisma.user.findUnique({ where: { username } }) !== null`. -/
def usernameTaken (db : DB) (uname : String) : Bool :=
  (db.users.find? (fun u => u.username == uname)).isSome

/-- The `while (existingUser)` loop of the strategy, fuelled so that it
is total: starting from candidate `counter`, return the first candidate
that is not taken, trying at most `fuel` candidates. -/
def resolveUsernameAux (db : DB) (base : String) : Nat → Nat → Option String
  | _, 0 => none
  | counter, fuel + 1 =>
    let cand := usernameCandidate base counter
    if usernameTaken db cand then resolveUsernameAux db base (counter + 1) fuel
    else some cand

/-- Collision resolution as run by the strategy: candidates from index 0
with enough fuel to exceed the number of stored users (the candidates
are pairwise distinct, so the source's unbounded loop always stops
within that many probes). -/
def resolveUsername (db : DB) (base : String) : Option String :=
  resolveUsernameAux db base 0 (db.users.length + 1)

/-- The fields of the Google profile the verify callback reads. -/
structure GoogleProfile where
  id : String
  emails : List String
  displayName : Option String
deriving Repr, DecidableEq

/-- `profile.displayName || google_user_<googleId>` (JavaScript `||`:
the fallback is used when `displayName` is absent or empty). -/
def profileUsername (p : GoogleProfile) : String :=
  match p.displayName with
  | some d => if d == "" then "google_user_" ++ p.id else d
  | none => "google_user_" ++ p.id

/-- The GoogleStrategy verify callback (src/config/passport.js): return
the account matching the profile's Google subject id unchanged; else
link the subject id onto the account matching the profile email; else
create a fresh account with a collision-free derived username, the
subject id set and no password.  `freshUserId` is the id the store
assigns to a created row; the created row's role takes the schema
default (the ordinary, non-admin role). -/
def googleVerify (db : DB) (p : GoogleProfile) (freshUserId : String) :
    Except String (User × DB) :=
  let googleId := p.id
  let email : Option String := p.emails.head?
  let username := profileUsername p
  match db.users.find? (fun u => u.googleId == some googleId) with
  | some user => .ok (user, db)
  | none =>
    match (if strTruthy email then db.users.find? (fun u => u.email == email) else none) with
    | some user =>
      let linked := { user with googleId := some googleId }
      .ok (linked,
        { db with users := db.users.map (fun u => if u.id == user.id then linked else u) })
    | none =>
      match resolveUsername db (baseUsername username) with
      | none => .error "username search exhausted"
      | some uniqueUsername =>
        let newUser : User :=
          { id := freshUserId, username := uniqueUsername, email := email,
            password := none, googleId := some googleId, role := "USER" }
        .ok (newUser, { db with users := db.users ++ [newUser] })

/-! ### Helper lemmas -/

theorem toNat_ofNat_valid (n : Nat) (h : n.isValidChar) : (Char.ofNat n).toNat = n := by
  unfold Char.ofNat
  rw [dif_pos h]
  rfl

theorem isJsWs_eq_false_of_alpha {c : Char} (h65 : 65 ≤ c.toNat) (h122 : c.toNat ≤ 122) :
    isJsWs c = false := by
  simp only [isJsWs, Bool.or_eq_false_iff, beq_eq_false_iff_ne, ne_eq]
  repeat' apply And.intro
  all_goals rintro rfl
  all_goals first
    | exact absurd h65 (by decide)
    | exact absurd h122 (by decide)

theorem isJsWs_toLower (c : Char) : isJsWs (Char.toLower c) = isJsWs c := by
  unfold Char.toLower
  show isJsWs (if c.toNat ≥ 65 ∧ c.toNat ≤ 90 then Char.ofNat (c.toNat + 32) else c) = isJsWs c
  by_cases h : c.toNat ≥ 65 ∧ c.toNat ≤ 90
  · rw [if_pos h]
    have hv : Nat.isValidChar (c.toNat + 32) := Or.inl (by omega)
    have ht : (Char.ofNat (c.toNat + 32)).toNat = c.toNat + 32 := toNat_ofNat_valid _ hv
    rw [isJsWs_eq_false_of_alpha (c := Char.ofNat (c.toNat + 32)) (by omega) (by omega),
        isJsWs_eq_false_of_alpha (c := c) (by omega) (by omega)]
  · rw [if_neg h]

theorem collapseWsAux_map_toLower (inRun : Bool) (l : List Char) :
    collapseWsAux inRun (l.map Char.toLower) = (collapseWsAux inRun l).map Char.toLower := by
  induction l generalizing inRun with
  | nil => rfl
  | cons c cs ih =>
    simp only [List.map_cons, collapseWsAux, isJsWs_toLower]
    by_cases h : isJsWs c
    · rw [if_pos h, if_pos h]
      cases inRun with
      | true => exact ih true
      | false => simp only [List.map_cons, ih true]; rfl
    · rw [if_neg h, if_neg h]
      simp only [List.map_cons, ih false]

theorem resolveUsernameAux_first_free (db : DB) (base : String) (fuel : Nat) :
    ∀ (counter k : Nat), k < fuel →
      (∀ j, j < k → usernameTaken db (usernameCandidate base (counter + j)) = true) →
      usernameTaken db (usernameCandidate base (counter + k)) = false →
      resolveUsernameAux db base counter fuel = some (usernameCandidate base (counter + k)) := by
  induction fuel with
  | zero => intro counter k hk _ _; exact absurd hk (Nat.not_lt_zero k)
  | succ f ih =>
    intro counter k hk htaken hfree
    unfold resolveUsernameAux
    cases k with
    | zero =>
      rw [Nat.add_zero] at hfree ⊢
      simp [hfree]
    | succ k' =>
      have h0 : usernameTaken db (usernameCandidate base counter) = true := by
        have := htaken 0 (Nat.succ_pos k')
        rwa [Nat.add_zero] at this
      simp only [h0, if_true]
      have hshift : counter + (k' + 1) = (counter + 1) + k' := by omega
      rw [hshift]
      exact ih (counter + 1) k' (by omega)
        (fun j hj => by
          have := htaken (j + 1) (by omega)
          rwa [show counter + (j + 1) = (counter + 1) + j by omega] at this)
        (by rwa [hshift] at hfree)

theorem find?_append_of_none {α : Type} (p : α → Bool) (l₁ l₂ : List α)
    (h : l₁.find? p = none) : (l₁ ++ l₂).find? p = l₂.find? p := by
  induction l₁ with
  | nil => rfl
  | cons a l ih =>
    cases hpa : p a with
    | true =>
      rw [List.find?_cons_of_pos _ hpa] at h
      exact absurd h (by simp)
    | false =>
      have hpa' : ¬ p a = true := by simp [hpa]
      rw [List.find?_cons_of_neg _ hpa'] at h
      rw [List.cons_append, List.find?_cons_of_neg _ hpa']
      exact ih h

theorem find?_token_filter_none (l : List RefreshTokenRow) (tok : Jwt) :
    (l.filter (fun r => r.token ≠ tok)).find? (fun r => r.token == tok) = none := by
  apply List.find?_eq_none.mpr
  intro r hr
  have h2 := (List.mem_filter.mp hr).2
  simp only [ne_eq, decide_not, Bool.not_eq_true', decide_eq_false_iff_not] at h2
  simp only [Bool.not_eq_true, beq_eq_false_iff_ne, ne_eq]
  exact h2

theorem filter_token_idem (l : List RefreshTokenRow) (tok : Jwt) :
    (l.filter (fun r => r.token ≠ tok)).filter (fun r => r.token ≠ tok)
      = l.filter (fun r => r.token ≠ tok) := by
  apply List.filter_eq_self.mpr
  intro r hr
  exact (List.mem_filter.mp hr).2

/-! ### Concrete fixtures used by the witness theorems -/

def cfg0 : Config := ⟨"access-secret", "refresh-secret", 15 * 60 * 1000, 7 * dayMs⟩

def adminUser : User := ⟨"u1", "alice", some "alice@example.com", some "hash1", none, "ADMIN"⟩

def plainUser : User := ⟨"u2", "bob", some "bob@example.com", some "hash2", none, "USER"⟩

def tok0 : Jwt := generateRefreshToken cfg0 "u1" 0

def row0 : RefreshTokenRow := ⟨1, tok0, "u1", 7 * dayMs⟩

def db0 : DB := ⟨[adminUser, plainUser], [row0]⟩

def tok1 : Jwt := generateRefreshToken cfg0 "u1" 0

def row1 : RefreshTokenRow := ⟨1, tok1, "u1", 5⟩

def db1 : DB := ⟨[adminUser], [row1]⟩

def db1Deleted : DB := ⟨[adminUser], []⟩

/-- A configuration with a non-default refresh lifetime
(`REFRESH_TOKEN_EXPIRY = '1d'`). -/
def cfgShort : Config := ⟨"access-secret", "refresh-secret", 15 * 60 * 1000, dayMs⟩

def dbEmpty : DB := ⟨[], []⟩

/-- A concrete access-token verifier for account `u1`: exactly the
string `tok-u1` verifies. -/
def verifyU1 : String → Except String JwtPayload :=
  fun s => if s == "tok-u1" then .ok ⟨"u1"⟩ else .error "Invalid or expired access token"

/-- A request presenting `u1`'s access token in the Authorization
header. -/
def reqU1 : Request := ⟨some "Bearer tok-u1", none⟩

def googleUser : User := ⟨"u3", "gina", none, none, some "g1", "USER"⟩

def carolUser : User := ⟨"u4", "carol", some "carol@example.com", some "hash4", none, "USER"⟩

def dbG : DB := ⟨[googleUser, carolUser], []⟩

def johnA : User := ⟨"a", "john_smith", none, none, none, "USER"⟩

def johnB : User := ⟨"b", "john_smith_1", none, none, none, "USER"⟩

def dbJohn : DB := ⟨[johnA, johnB], []⟩

/-- A verifier that rejects `mal` as structurally malformed and
everything else as expired: the two real failure modes of
`jwt.verify`. -/
def verifyME : String → Except String JwtPayload :=
  fun s => if s == "mal" then .error "jwt malformed" else .error "jwt expired"

/-- A verifier accepting exactly the cookie token `cookietok`, for
account `u9`. -/
def verifyCk : String → Except String JwtPayload :=
  fun s => if s == "cookietok" then .ok ⟨"u9"⟩ else .error "Invalid or expired access token"

/-- A request with a malformed Authorization header (wrong scheme) and a
well-formed access-token cookie. -/
def reqMal : Request := ⟨some "Token abc", some "cookietok"⟩

/-! ### Claim theorems -/

/-- C1: for every refresh token whose `RefreshSession` row exists in the
store and is not yet expired, a successful redemption leaves the store
unchanged (no rotation, no invalidation), so redeeming the same token
again before the stored absolute expiry also succeeds and returns an
access token that verifies. -/
theorem redeem_no_rotation (cfg : Config) (db : DB) (tok : Jwt)
    (now now₂ : Nat) (row : RefreshTokenRow) (p : JwtPayload)
    (hacc : 0 < cfg.accessExpiry)
    (hver : verifyRefreshToken cfg tok now = .ok p)
    (hfind : db.findRefreshByToken tok = some row)
    (hexp : ¬ now > row.expiresAt) :
    refreshTokenMutation cfg db (some tok) now
      = (.ok (generateAccessToken cfg row.userId now, db.findUserById row.userId), db)
    ∧ (∀ p₂, verifyRefreshToken cfg tok now₂ = .ok p₂ → ¬ now₂ > row.expiresAt →
        refreshTokenMutation cfg db (some tok) now₂
          = (.ok (generateAccessToken cfg row.userId now₂, db.findUserById row.userId), db)
        ∧ verifyAccessToken cfg (generateAccessToken cfg row.userId now₂) now₂
            = .ok ⟨row.userId⟩) := by
  constructor
  · simp only [refreshTokenMutation, hver, hfind, if_neg hexp]
  · intro p₂ hver₂ hexp₂
    constructor
    · simp only [refreshTokenMutation, hver₂, hfind, if_neg hexp₂]
    · have hj : jwtVerify (generateAccessToken cfg row.userId now₂) cfg.accessSecret now₂
          = some ⟨row.userId⟩ := by
        simp only [generateAccessToken, jwtVerify]
        rw [if_pos]
        exact ⟨by trivial, by omega⟩
      simp only [verifyAccessToken, hj]

/-- Witness for C1 at a concrete store: the admin's freshly issued
refresh token redeems twice at time 0, both redemptions leave the store
unchanged and the second access token verifies. -/
theorem redeem_no_rotation_witness :
    refreshTokenMutation cfg0 db0 (some tok0) 0
      = (.ok (generateAccessToken cfg0 "u1" 0, some adminUser), db0)
    ∧ refreshTokenMutation cfg0 db0 (some tok0) 0
      = (.ok (generateAccessToken cfg0 "u1" 0, some adminUser), db0)
    ∧ verifyAccessToken cfg0 (generateAccessToken cfg0 "u1" 0) 0 = .ok ⟨"u1"⟩ := by
  have h := redeem_no_rotation cfg0 db0 tok0 0 0 row0 ⟨"u1"⟩
    (by decide) rfl (by decide) (by decide)
  have h₂ := h.2 ⟨"u1"⟩ rfl (by decide)
  exact ⟨h.1, h₂.1, h₂.2⟩

/-- C2: redeeming a cryptographically valid refresh token whose stored
expiry lies before the current time fails with `Refresh token expired`
and deletes the stored row, so that a subsequent redeem of the same
(still cryptographically valid) token fails with
`Refresh token not found`.  The token column is unique, which the
hypothesis `huniq` records. -/
theorem redeem_expired_deletes (cfg : Config) (db db' : DB) (tok : Jwt)
    (now : Nat) (row : RefreshTokenRow) (p : JwtPayload)
    (hver : verifyRefreshToken cfg tok now = .ok p)
    (hfind : db.findRefreshByToken tok = some row)
    (hexp : row.expiresAt < now)
    (huniq : ∀ r ∈ db.refreshTokens, r.token = tok → r.id = row.id)
    (hdb' : db' = { db with refreshTokens :=
        db.refreshTokens.filter (fun r => r.id ≠ row.id) }) :
    refreshTokenMutation cfg db (some tok) now = (.error "Refresh token expired", db')
    ∧ (∀ now₂ p₂, verifyRefreshToken cfg tok now₂ = .ok p₂ →
        refreshTokenMutation cfg db' (some tok) now₂
          = (.error "Refresh token not found", db')) := by
  have hnone : db'.findRefreshByToken tok = none := by
    rw [hdb']
    apply List.find?_eq_none.mpr
    intro r hr
    have hmem := List.mem_filter.mp hr
    have hid : r.id ≠ row.id := by
      have := hmem.2
      simpa using this
    simp only [beq_eq_false_iff_ne, ne_eq, Bool.not_eq_true]
    intro hbeq
    exact hid (huniq r hmem.1 (by simpa using hbeq))
  constructor
  · simp only [refreshTokenMutation, hver, hfind, if_pos hexp, hdb']
  · intro now₂ p₂ hver₂
    simp only [refreshTokenMutation, hver₂, hnone]

/-- Witness for C2: a row stored with expiry 5, redeemed at time 10
while the token still verifies, fails expired and is deleted; the retry
fails not-found. -/
theorem redeem_expired_deletes_witness :
    refreshTokenMutation cfg0 db1 (some tok1) 10 = (.error "Refresh token expired", db1Deleted)
    ∧ refreshTokenMutation cfg0 db1Deleted (some tok1) 10
        = (.error "Refresh token not found", db1Deleted) := by
  have h := redeem_expired_deletes cfg0 db1 db1Deleted tok1 10 row1 ⟨"u1"⟩
    rfl (by decide) (by decide) (by decide) (by decide)
  exact ⟨h.1, h.2 10 ⟨"u1"⟩ rfl⟩

/-- C3 counterexample: with the refresh lifetime configured to one day,
issuing at time 0 persists a row whose stored expiry is seven days — not
issuance time plus the configured lifetime, and different from the
expiry embedded in the signed refresh token. -/
theorem stored_expiry_mismatch_counterexample :
    cfgShort.refreshExpiry ≠ defaultRefreshExpiry
    ∧ (issueRefreshToken cfgShort dbEmpty "u1" 1 0).1
        = .signed "u1" cfgShort.refreshSecret (0 + cfgShort.refreshExpiry)
    ∧ (issueRefreshToken cfgShort dbEmpty "u1" 1 0).2.refreshTokens
        = [⟨1, (issueRefreshToken cfgShort dbEmpty "u1" 1 0).1, "u1", 0 + 7 * dayMs⟩]
    ∧ 0 + 7 * dayMs ≠ 0 + cfgShort.refreshExpiry := by
  refine ⟨by decide, rfl, rfl, by decide⟩

/-- C3 (amended): the persisted expiry is always issuance time plus a
hard-coded seven days, whatever the configured refresh lifetime; the
signed token embeds issuance time plus the configured lifetime, so the
two agree exactly when the configured lifetime is the default seven
days. -/
theorem stored_expiry_hardcoded (cfg : Config) (db : DB) (uid : String)
    (fid now : Nat) :
    (issueRefreshToken cfg db uid fid now).2.refreshTokens
      = db.refreshTokens
        ++ [⟨fid, generateRefreshToken cfg uid now, uid, now + 7 * dayMs⟩]
    ∧ generateRefreshToken cfg uid now
        = .signed uid cfg.refreshSecret (now + cfg.refreshExpiry)
    ∧ (cfg.refreshExpiry = defaultRefreshExpiry →
        now + 7 * dayMs = now + cfg.refreshExpiry) := by
  refine ⟨rfl, rfl, fun h => ?_⟩
  rw [h]
  rfl

/-- Witness for C3 (amended) at the default lifetime: the stored expiry
and the token-embedded expiry agree. -/
theorem stored_expiry_hardcoded_witness :
    (issueRefreshToken cfg0 db0 "u1" 5 0).2.refreshTokens
      = db0.refreshTokens
        ++ [⟨5, generateRefreshToken cfg0 "u1" 0, "u1", 0 + 7 * dayMs⟩]
    ∧ 0 + 7 * dayMs = 0 + cfg0.refreshExpiry :=
  ⟨(stored_expiry_hardcoded cfg0 db0 "u1" 5 0).1,
   (stored_expiry_hardcoded cfg0 db0 "u1" 5 0).2.2 rfl⟩

/-- C4 (code bug, evaluated at the failing input): account `u1` is
stored with role `ADMIN` and its request authenticates, yet
`requireAdmin` on the resulting context throws `Admin access required`,
because the context user built by `authenticate` carries only `{ id }`
and `requireAdmin` reads the (absent) `role` property off the context
instead of resolving the account. -/
theorem requireAdmin_rejects_admin :
    (db0.findUserById "u1").map User.role = some "ADMIN"
    ∧ authenticate verifyU1 reqU1 = ⟨some ⟨"u1", none⟩⟩
    ∧ requireAdmin (authenticate verifyU1 reqU1) = .error "Admin access required" := by
  refine ⟨by decide, by decide, ?_⟩
  rfl

/-- C5: the external-identity callback returns the account matching the
subject id unchanged (and, the store being unchanged, any repeated
callback with the same subject id yields the identical account); else it
links the subject id onto the account matching the profile email without
creating a row; else it creates a fresh account with the subject id set
and no password hash. -/
theorem googleVerify_resolution (db : DB) (p : GoogleProfile) (fid : String) :
    (∀ u, db.users.find? (fun x => x.googleId == some p.id) = some u →
      googleVerify db p fid = .ok (u, db)
      ∧ ∀ fid₂, googleVerify db p fid₂ = .ok (u, db))
    ∧ (∀ e u, db.users.find? (fun x => x.googleId == some p.id) = none →
        p.emails.head? = some e → e ≠ "" →
        db.users.find? (fun x => x.email == some e) = some u →
        googleVerify db p fid
          = .ok ({ u with googleId := some p.id },
                 { db with users := db.users.map (fun x =>
                     if x.id == u.id then { u with googleId := some p.id } else x) })
        ∧ (db.users.map (fun x =>
             if x.id == u.id then { u with googleId := some p.id } else x)).length
            = db.users.length)
    ∧ (∀ uname, db.users.find? (fun x => x.googleId == some p.id) = none →
        (if strTruthy p.emails.head?
         then db.users.find? (fun x => x.email == p.emails.head?) else none) = none →
        resolveUsername db (baseUsername (profileUsername p)) = some uname →
        googleVerify db p fid
          = .ok (⟨fid, uname, p.emails.head?, none, some p.id, "USER"⟩,
                 { db with users :=
                     db.users ++ [⟨fid, uname, p.emails.head?, none, some p.id, "USER"⟩] })) := by
  refine ⟨?_, ?_, ?_⟩
  · intro u hg
    constructor
    · simp only [googleVerify, hg]
    · intro fid₂
      simp only [googleVerify, hg]
  · intro e u hg he hne hm
    have hs : strTruthy (some e) = true := by
      simp only [strTruthy, Bool.not_eq_true']
      exact beq_eq_false_iff_ne.mpr hne
    constructor
    · simp only [googleVerify, hg, he, hs, if_true, hm]
    · exact List.length_map db.users _
  · intro uname hg hmail huname
    simp only [googleVerify, hg, hmail, huname]

/-- Witness for C5: a store holding one account with a linked subject
id, one linkable account matched by email, and a fresh profile that
triggers creation. -/
theorem googleVerify_resolution_witness :
    (googleVerify dbG ⟨"g1", [], none⟩ "new1" = .ok (googleUser, dbG)
     ∧ googleVerify dbG ⟨"g1", [], none⟩ "new9" = .ok (googleUser, dbG))
    ∧ googleVerify dbG ⟨"g2", ["carol@example.com"], none⟩ "new2"
        = .ok ({ carolUser with googleId := some "g2" },
               { dbG with users := dbG.users.map (fun x =>
                   if x.id == carolUser.id
                   then { carolUser with googleId := some "g2" } else x) })
    ∧ googleVerify dbG ⟨"g3", [], some "Dana Doe"⟩ "new3"
        = .ok (⟨"new3", "dana_doe", none, none, some "g3", "USER"⟩,
               { dbG with users :=
                   dbG.users ++ [⟨"new3", "dana_doe", none, none, some "g3", "USER"⟩] }) := by
  have h1 := (googleVerify_resolution dbG ⟨"g1", [], none⟩ "new1").1 googleUser (by decide)
  have h2 := (googleVerify_resolution dbG ⟨"g2", ["carol@example.com"], none⟩ "new2").2.1
    "carol@example.com" carolUser (by decide) rfl (by decide) (by decide)
  have h3 := (googleVerify_resolution dbG ⟨"g3", [], some "Dana Doe"⟩ "new3").2.2
    "dana_doe" (by decide) (by decide) (by decide)
  exact ⟨⟨h1.1, h1.2 "new9"⟩, h2.1, h3⟩

/-- C6: the base username is the display name lower-cased with
whitespace collapsed to underscores (the source's
collapse-then-lowercase equals the spec's lowercase-then-collapse); the
collision loop tries `base`, `base_1`, `base_2`, … in order and returns
the first free candidate; and the creation branch persists exactly that
resolved candidate. -/
theorem username_derivation_deterministic :
    (∀ d : String, baseUsername d = specBaseUsername d)
    ∧ (∀ (db : DB) (base : String) (k : Nat),
        (∀ j, j < k → usernameTaken db (usernameCandidate base j) = true) →
        usernameTaken db (usernameCandidate base k) = false →
        k ≤ db.users.length →
        resolveUsername db base = some (usernameCandidate base k))
    ∧ (∀ (db : DB) (p : GoogleProfile) (fid uname : String),
        db.users.find? (fun x => x.googleId == some p.id) = none →
        (if strTruthy p.emails.head?
         then db.users.find? (fun x => x.email == p.emails.head?) else none) = none →
        resolveUsername db (baseUsername (profileUsername p)) = some uname →
        ∃ nu db', googleVerify db p fid = .ok (nu, db') ∧ nu.username = uname) := by
  refine ⟨?_, ?_, ?_⟩
  · intro d
    exact congrArg String.mk (collapseWsAux_map_toLower false d.data).symm
  · intro db base k htaken hfree hk
    have h := resolveUsernameAux_first_free db base (db.users.length + 1) 0 k
      (by omega)
      (fun j hj => by rw [Nat.zero_add]; exact htaken j hj)
      (by rw [Nat.zero_add]; exact hfree)
    rwa [Nat.zero_add] at h
  · intro db p fid uname hg hmail huname
    refine ⟨⟨fid, uname, p.emails.head?, none, some p.id, "USER"⟩,
      { db with users :=
          db.users ++ [⟨fid, uname, p.emails.head?, none, some p.id, "USER"⟩] },
      ?_, rfl⟩
    simp only [googleVerify, hg, hmail, huname]

/-- Witness for C6: display name `John  Smith` collapses to base
`john_smith`; with `john_smith` and `john_smith_1` taken, the loop
resolves to `john_smith_2` and the created account carries it. -/
theorem username_derivation_deterministic_witness :
    baseUsername "John  Smith" = specBaseUsername "John  Smith"
    ∧ resolveUsername dbJohn "john_smith" = some (usernameCandidate "john_smith" 2)
    ∧ ∃ nu db', googleVerify dbJohn ⟨"g7", [], some "John  Smith"⟩ "new7" = .ok (nu, db')
        ∧ nu.username = "john_smith_2" := by
  have h := username_derivation_deterministic
  refine ⟨h.1 "John  Smith", h.2.1 dbJohn "john_smith" 2 ?_ (by decide) (by decide), ?_⟩
  · intro j hj
    interval_cases j <;> decide
  · have h3 := h.2.2 dbJohn ⟨"g7", [], some "John  Smith"⟩ "new7" "john_smith_2"
      (by decide) (by decide) (by decide)
    exact h3

/-- C7: context resolution never propagates a verification error — an
absent token and any verify failure (malformed or expired alike,
whatever the error message) produce the same unauthenticated context,
and `requireAuth` rejects that context with the single error
`Not authenticated`, making the three cases indistinguishable at this
layer. -/
theorem unauthenticated_indistinguishable
    (verify : String → Except String JwtPayload) (req : Request) :
    (extractToken req = none → authenticate verify req = ⟨none⟩)
    ∧ (∀ t e, extractToken req = some t → verify t = .error e →
        authenticate verify req = ⟨none⟩)
    ∧ requireAuth ⟨none⟩ = .error "Not authenticated"
    ∧ (authenticate verify req = ⟨none⟩ →
        requireAuth (authenticate verify req) = .error "Not authenticated") := by
  refine ⟨?_, ?_, rfl, ?_⟩
  · intro h
    simp only [authenticate, h]
  · intro t e ht hv
    simp only [authenticate, ht, hv]
  · intro h
    rw [h]
    rfl

/-- Witness for C7: an absent token, a malformed token and an expired
token all yield the unauthenticated context, which `requireAuth`
rejects. -/
theorem unauthenticated_indistinguishable_witness :
    authenticate verifyME ⟨none, none⟩ = ⟨none⟩
    ∧ authenticate verifyME ⟨some "Bearer mal", none⟩ = ⟨none⟩
    ∧ authenticate verifyME ⟨some "Bearer old", none⟩ = ⟨none⟩
    ∧ requireAuth ⟨none⟩ = .error "Not authenticated" := by
  refine ⟨(unauthenticated_indistinguishable verifyME ⟨none, none⟩).1 rfl,
    (unauthenticated_indistinguishable verifyME ⟨some "Bearer mal", none⟩).2.1
      "mal" "jwt malformed" (by decide) rfl,
    (unauthenticated_indistinguishable verifyME ⟨some "Bearer old", none⟩).2.1
      "old" "jwt expired" (by decide) rfl,
    (unauthenticated_indistinguishable verifyME ⟨none, none⟩).2.2.1⟩

/-- C8: logout deletes every stored row carrying the revoked token value
and returns `true`; revoking again is a no-op that still succeeds; and a
redeem of the same (still cryptographically valid) token after the
revoke fails with `Refresh token not found`. -/
theorem revoke_idempotent_then_not_found (cfg : Config) (db : DB) (tok : Jwt)
    (now : Nat) (p : JwtPayload)
    (hver : verifyRefreshToken cfg tok now = .ok p) :
    logoutMutation db (some tok)
      = (true, { db with refreshTokens :=
          db.refreshTokens.filter (fun r => r.token ≠ tok) })
    ∧ logoutMutation (logoutMutation db (some tok)).2 (some tok)
        = (true, (logoutMutation db (some tok)).2)
    ∧ refreshTokenMutation cfg (logoutMutation db (some tok)).2 (some tok) now
        = (.error "Refresh token not found", (logoutMutation db (some tok)).2) := by
  refine ⟨rfl, ?_, ?_⟩
  · simp only [logoutMutation]
    rw [filter_token_idem]
  · have hnone : ((logoutMutation db (some tok)).2).findRefreshByToken tok = none := by
      simp only [logoutMutation, DB.findRefreshByToken]
      exact find?_token_filter_none db.refreshTokens tok
    simp only [refreshTokenMutation, hver, hnone]

/-- Witness for C8: revoking `u1`'s freshly issued token empties the
store, a second revoke is a no-op, and redeeming afterwards fails with
`Refresh token not found`. -/
theorem revoke_idempotent_then_not_found_witness :
    logoutMutation db0 (some tok0)
      = (true, { db0 with refreshTokens :=
          db0.refreshTokens.filter (fun r => r.token ≠ tok0) })
    ∧ logoutMutation (logoutMutation db0 (some tok0)).2 (some tok0)
        = (true, (logoutMutation db0 (some tok0)).2)
    ∧ refreshTokenMutation cfg0 (logoutMutation db0 (some tok0)).2 (some tok0) 0
        = (.error "Refresh token not found", (logoutMutation db0 (some tok0)).2) :=
  revoke_idempotent_then_not_found cfg0 db0 tok0 0 ⟨"u1"⟩ rfl

/-- C9: redeeming a refresh token immediately after it was issued for
`uid` succeeds without touching the store and returns an access token
whose verified claim carries exactly `uid` (the token column being
unique, the freshly issued token matches no pre-existing row). -/
theorem issue_redeem_roundtrip (cfg : Config) (db : DB) (uid : String)
    (fid now : Nat)
    (hacc : 0 < cfg.accessExpiry) (href : 0 < cfg.refreshExpiry)
    (hfresh : ∀ r ∈ db.refreshTokens, r.token ≠ generateRefreshToken cfg uid now) :
    refreshTokenMutation cfg (issueRefreshToken cfg db uid fid now).2
        (some (issueRefreshToken cfg db uid fid now).1) now
      = (.ok (generateAccessToken cfg uid now,
              (issueRefreshToken cfg db uid fid now).2.findUserById uid),
         (issueRefreshToken cfg db uid fid now).2)
    ∧ verifyAccessToken cfg (generateAccessToken cfg uid now) now = .ok ⟨uid⟩ := by
  have hver : verifyRefreshToken cfg (generateRefreshToken cfg uid now) now = .ok ⟨uid⟩ := by
    have hj : jwtVerify (generateRefreshToken cfg uid now) cfg.refreshSecret now
        = some ⟨uid⟩ := by
      simp only [generateRefreshToken, jwtVerify]
      rw [if_pos]
      exact ⟨by trivial, by omega⟩
    simp only [verifyRefreshToken, hj]
  have hnone : db.refreshTokens.find?
      (fun r => r.token == generateRefreshToken cfg uid now) = none := by
    apply List.find?_eq_none.mpr
    intro r hr
    simp only [Bool.not_eq_true, beq_eq_false_iff_ne, ne_eq]
    exact hfresh r hr
  have hacc' : verifyAccessToken cfg (generateAccessToken cfg uid now) now = .ok ⟨uid⟩ := by
    have hj : jwtVerify (generateAccessToken cfg uid now) cfg.accessSecret now
        = some ⟨uid⟩ := by
      simp only [generateAccessToken, jwtVerify]
      rw [if_pos]
      exact ⟨by trivial, by omega⟩
    simp only [verifyAccessToken, hj]
  have hfind : (issueRefreshToken cfg db uid fid now).2.findRefreshByToken
      (issueRefreshToken cfg db uid fid now).1
      = some ⟨fid, generateRefreshToken cfg uid now, uid, now + 7 * dayMs⟩ := by
    simp only [issueRefreshToken, storeRefreshToken, DB.findRefreshByToken]
    rw [find?_append_of_none _ _ _ hnone]
    simp [List.find?]
  refine ⟨?_, hacc'⟩
  simp only [issueRefreshToken] at hfind ⊢
  simp only [refreshTokenMutation, hver, hfind]
  rw [if_neg (by omega)]

/-- Witness for C9: a roundtrip from an empty store at time 0. -/
theorem issue_redeem_roundtrip_witness :
    refreshTokenMutation cfg0 (issueRefreshToken cfg0 dbEmpty "u7" 3 0).2
        (some (issueRefreshToken cfg0 dbEmpty "u7" 3 0).1) 0
      = (.ok (generateAccessToken cfg0 "u7" 0,
              (issueRefreshToken cfg0 dbEmpty "u7" 3 0).2.findUserById "u7"),
         (issueRefreshToken cfg0 dbEmpty "u7" 3 0).2)
    ∧ verifyAccessToken cfg0 (generateAccessToken cfg0 "u7" 0) 0 = .ok ⟨"u7"⟩ :=
  issue_redeem_roundtrip cfg0 dbEmpty "u7" 3 0 (by decide) (by decide) (by decide)

/-- C10: a present but malformed Authorization header (wrong scheme or
not exactly two space-separated parts) is ignored and the access-token
cookie is used instead, so a well-formed cookie still authenticates the
request. -/
theorem malformed_header_cookie_fallback
    (verify : String → Except String JwtPayload) (req : Request)
    (auth ct : String) (p : JwtPayload)
    (hauth : req.authorization = some auth)
    (hne : auth ≠ "")
    (hmal : ¬((jsSplitSpace auth).length = 2
              ∧ (jsSplitSpace auth).head? = some "Bearer"))
    (hcookie : req.accessTokenCookie = some ct)
    (hct : ct ≠ "")
    (hver : verify ct = .ok p) :
    extractToken req = some ct
    ∧ authenticate verify req = ⟨some ⟨p.userId, none⟩⟩ := by
  have h1 : (auth == "") = false := beq_eq_false_iff_ne.mpr hne
  have h2 : ((jsSplitSpace auth).length == 2
      && ((jsSplitSpace auth).head? == some "Bearer")) = false := by
    rw [Bool.eq_false_iff]
    intro hb
    simp only [Bool.and_eq_true] at hb
    exact hmal ⟨eq_of_beq hb.1, eq_of_beq hb.2⟩
  have h3 : (ct == "") = false := beq_eq_false_iff_ne.mpr hct
  have hx : extractToken req = some ct := by
    simp only [extractToken, hauth, hcookie, h1, h2, Bool.false_eq_true, if_false,
      strTruthy, h3, Bool.not_false, Bool.and_self, if_true]
  exact ⟨hx, by simp only [authenticate, hx, hver]⟩

/-- Witness for C10: a `Token abc` header is ignored and the
`cookietok` cookie authenticates account `u9`. -/
theorem malformed_header_cookie_fallback_witness :
    extractToken reqMal = some "cookietok"
    ∧ authenticate verifyCk reqMal = ⟨some ⟨"u9", none⟩⟩ :=
  malformed_header_cookie_fallback verifyCk reqMal "Token abc" "cookietok" ⟨"u9"⟩
    rfl (by decide) (by decide) rfl (by decide) rfl

end Cybersoft
